import Mathlib

/-!
Verification of the JavaScriptCore foreign-function adapter
(`yt_dlp/utils/_jscore.py` and the provider adapter
`yt_dlp/extractor/youtube/jsc/_builtin/pythonista.py`).

The native JavaScriptCore library is reached through `ctypes`; here it is
modelled as a record of pure functions (`NativeLib`) describing what each
bound C entry point returns.  Null pointers (`c_void_p` with value `None`)
are modelled as `Option.none`.  Every method of the Python class is
translated into a Lean function over that record; the stateful
create/release calls on native handles are made observable through an
explicit event trace (`Ev`), which is exactly the counting/mock binding
layer the specification describes for checking handle balance.
-/

namespace JSCore

/-- A create/release event on a native handle, as a counting mock binding
layer would record it.  Context handles come from `JSGlobalContextCreate` /
`JSGlobalContextRelease`; string handles come from
`JSStringCreateWithUTF8CString` or `JSValueToStringCopy` and are released
by `JSStringRelease`.  Only non-null handles are recorded: a null return
creates nothing, and releasing a null pointer touches no handle. -/
inductive Ev where
  | createCtx (h : Nat)
  | releaseCtx (h : Nat)
  | createStr (h : Nat)
  | releaseStr (h : Nat)
  deriving DecidableEq, Repr

/-- Behaviour of the loaded native library: one field per C entry point
bound in `_configure_functions`.  `JSGlobalContextCreate` is always called
with `None`, so it is modelled as a constant.  `JSEvaluateScript` takes the
context and script-string handles and yields the result value handle and
the exception out-parameter.  `JSValueToStringCopy` takes the context and a
value handle and yields the copied string handle and its own exception
out-parameter.  `JSStringGetUTF8CString` takes a string handle and the
buffer capacity and yields the bytes found in the buffer afterwards. -/
structure NativeLib where
  JSGlobalContextCreate : Option Nat
  JSStringCreateWithUTF8CString : String → Option Nat
  JSEvaluateScript : Nat → Nat → Option Nat × Option Nat
  JSValueToStringCopy : Nat → Nat → Option Nat × Option Nat
  JSStringGetMaximumUTF8CStringSize : Nat → Nat
  JSStringGetUTF8CString : Nat → Nat → List Nat

/-- The raised-when-evaluation-fails error type `JavaScriptCoreError`. -/
structure JavaScriptCoreError where
  message : String
  deriving DecidableEq, Repr

/-- The replacement character U+FFFD produced by Python's
`decode('utf-8', 'replace')` for each maximal invalid subpart. -/
def replChar : Char := Char.ofNat 0xFFFD

/-- Is `b` a UTF-8 continuation byte (`0x80..0xBF`)? -/
def isCont (b : Nat) : Bool := 0x80 ≤ b && b ≤ 0xBF

/-- Valid first continuation byte of a three-byte sequence with lead `b`
(the restricted ranges exclude overlong forms and surrogates, as Python's
UTF-8 decoder does). -/
def isCont3 (b c : Nat) : Bool :=
  if b = 0xE0 then 0xA0 ≤ c && c ≤ 0xBF
  else if b = 0xED then 0x80 ≤ c && c ≤ 0x9F
  else isCont c

/-- Valid first continuation byte of a four-byte sequence with lead `b`
(the restricted ranges exclude overlong forms and code points beyond
U+10FFFF, as Python's UTF-8 decoder does). -/
def isCont4 (b c : Nat) : Bool :=
  if b = 0xF0 then 0x90 ≤ c && c ≤ 0xBF
  else if b = 0xF4 then 0x80 ≤ c && c ≤ 0x8F
  else isCont c

/-- UTF-8 decoding with the `replace` error handler: each maximal invalid
subpart becomes one U+FFFD and decoding resumes at the next byte.  `fuel`
bounds the recursion and is instantiated with the list length. -/
def utf8Go : Nat → List Nat → List Char
  | 0, _ => []
  | _, [] => []
  | fuel + 1, b :: rest =>
    if b ≤ 0x7F then Char.ofNat b :: utf8Go fuel rest
    else if b ≤ 0xC1 then replChar :: utf8Go fuel rest
    else if b ≤ 0xDF then
      match rest with
      | [] => [replChar]
      | c :: rest2 =>
        if isCont c then
          Char.ofNat ((b - 0xC0) * 0x40 + (c - 0x80)) :: utf8Go fuel rest2
        else replChar :: utf8Go fuel rest
    else if b ≤ 0xEF then
      match rest with
      | [] => [replChar]
      | c :: rest2 =>
        if isCont3 b c then
          match rest2 with
          | [] => [replChar]
          | d :: rest3 =>
            if isCont d then
              Char.ofNat ((b - 0xE0) * 0x1000 + (c - 0x80) * 0x40 + (d - 0x80)) ::
                utf8Go fuel rest3
            else replChar :: utf8Go fuel rest2
        else replChar :: utf8Go fuel rest
    else if b ≤ 0xF4 then
      match rest with
      | [] => [replChar]
      | c :: rest2 =>
        if isCont4 b c then
          match rest2 with
          | [] => [replChar]
          | d :: rest3 =>
            if isCont d then
              match rest3 with
              | [] => [replChar]
              | e :: rest4 =>
                if isCont e then
                  Char.ofNat ((b - 0xF0) * 0x40000 + (c - 0x80) * 0x1000 +
                      (d - 0x80) * 0x40 + (e - 0x80)) :: utf8Go fuel rest4
                else replChar :: utf8Go fuel rest3
            else replChar :: utf8Go fuel rest2
        else replChar :: utf8Go fuel rest
    else replChar :: utf8Go fuel rest

/-- `bytes.decode('utf-8', 'replace')`. -/
def utf8DecodeReplace (bytes : List Nat) : List Char :=
  utf8Go bytes.length bytes

namespace JavaScriptCoreEvaluator

/-- `JavaScriptCoreEvaluator._string_to_python`: a null string handle
yields the empty string; otherwise query the maximum UTF-8 size, fill a
buffer of that capacity, read it up to the first NUL byte (`buffer.value`)
and decode as UTF-8 with invalid sequences replaced. -/
def _string_to_python (lib : NativeLib) (string_ref : Option Nat) : String :=
  match string_ref with
  | none => ""
  | some r =>
    let size := lib.JSStringGetMaximumUTF8CStringSize r
    let buffer := (lib.JSStringGetUTF8CString r size).take size
    List.asString (utf8DecodeReplace (buffer.takeWhile (fun b => b != 0)))

/-- `JavaScriptCoreEvaluator._value_to_string`: a null value handle yields
the empty string; otherwise call `JSValueToStringCopy` with a fresh
exception out-parameter.  When that out-parameter is set the function
returns the empty string at once — note that on this path the copied
string handle, if non-null, is never passed to `JSStringRelease` (the
early `return` precedes the try/finally block).  When it is not set, the
string handle is converted via `_string_to_python` and released in the
`finally` clause.  The second component is the trace of handle events. -/
def _value_to_string (lib : NativeLib) (context : Nat) (value : Option Nat) :
    String × List Ev :=
  match value with
  | none => ("", [])
  | some v =>
    match lib.JSValueToStringCopy context v with
    | (string_ref, some _) =>
      ("", match string_ref with
        | some r => [Ev.createStr r]
        | none => [])
    | (string_ref, none) =>
      (_string_to_python lib string_ref,
        match string_ref with
        | some r => [Ev.createStr r, Ev.releaseStr r]
        | none => [])

/-- `JavaScriptCoreEvaluator._evaluate_script`: create the native script
string (raising `JavaScriptCoreError` on a null handle), call
`JSEvaluateScript`, release the script string in the `finally` clause
immediately after that call on every path, then branch on the exception
out-parameter: if set, stringify the exception value and raise a
`JavaScriptCoreError` carrying that text or a generic message when the
text is empty (`message or ...`); otherwise stringify and return the
result value.  The second component is the trace of handle events. -/
def _evaluate_script (lib : NativeLib) (context : Nat) (script : String) :
    Except JavaScriptCoreError String × List Ev :=
  match lib.JSStringCreateWithUTF8CString script with
  | none => (Except.error ⟨"Failed to allocate script string"⟩, [])
  | some js_string =>
    match lib.JSEvaluateScript context js_string with
    | (result, exception) =>
      match exception with
      | some e =>
        match _value_to_string lib context (some e) with
        | (message, evs) =>
          (Except.error
              ⟨if message = "" then "JavaScriptCore raised an exception" else message⟩,
            Ev.createStr js_string :: Ev.releaseStr js_string :: evs)
      | none =>
        match _value_to_string lib context result with
        | (s, evs) =>
          (Except.ok s, Ev.createStr js_string :: Ev.releaseStr js_string :: evs)

/-- `JavaScriptCoreEvaluator._wrap_script`: the immediately-invoked
function expression wrapping the caller's script, written line for line as
the source builds it (braces are escaped as `\x7b`/`\x7d` and apostrophes
as `\x27`; `\\n` is the two-character escape appearing inside the
JavaScript text). -/
def _wrap_script (script : String) : String :=
  "(() => \x7b\n" ++
  "    \x27use strict\x27;\n" ++
  "    const __yt_console_output = [];\n" ++
  "    const __yt_console_log = (...args) => __yt_console_output.push(args.map((arg) => \x7b\n" ++
  "        if (typeof arg === \x27string\x27) \x7b\n" ++
  "            return arg;\n" ++
  "        \x7d\n" ++
  "        try \x7b\n" ++
  "            return JSON.stringify(arg);\n" ++
  "        \x7d catch (err) \x7b\n" ++
  "            return String(arg);\n" ++
  "        \x7d\n" ++
  "    \x7d).join(\x27 \x27));\n" ++
  "    const existingConsole = globalThis.console || \x7b\x7d;\n" ++
  "    globalThis.console = \x7b ...existingConsole, log: __yt_console_log \x7d;\n" ++
  "    " ++ script ++ "\n" ++
  "    return __yt_console_output.join(\x27\\n\x27);\n" ++
  "\x7d)()"

/-- `JavaScriptCoreEvaluator.evaluate`: wrap the script, create a fresh
global context (raising `JavaScriptCoreError` on a null handle), run
`_evaluate_script` inside `try`, and release the context in the `finally`
clause so the release happens on the success path, the script-exception
path and the internal-failure path alike.  The second component is the
trace of handle events. -/
def evaluate (lib : NativeLib) (script : String) :
    Except JavaScriptCoreError String × List Ev :=
  let wrapped_script := _wrap_script script
  match lib.JSGlobalContextCreate with
  | none => (Except.error ⟨"Failed to create JavaScriptCore context"⟩, [])
  | some context =>
    match _evaluate_script lib context wrapped_script with
    | (r, evs) => (r, Ev.createCtx context :: (evs ++ [Ev.releaseCtx context]))

/-- `JavaScriptCoreEvaluator._candidate_libraries`: the absolute framework
path first, then the named version-suffixed libraries resolved through
`ctypes.util.find_library`, keeping only truthy (non-empty) results.
`find_library` is a parameter because it queries the platform. -/
def _candidate_libraries (find_library : String → Option String) : List String :=
  "/System/Library/Frameworks/JavaScriptCore.framework/JavaScriptCore" ::
    (["JavaScriptCore",
      "javascriptcoregtk-4.1",
      "javascriptcoregtk-4.0",
      "javascriptcoregtk-3.0"].filterMap fun name =>
        match find_library name with
        | some path => if path = "" then none else some path
        | none => none)

/-- The loop of `JavaScriptCoreEvaluator._load_library`: try each
candidate with `ctypes.CDLL` (modelled by `cdll`, `none` standing for a
raised `OSError`), swallow individual failures and return the first handle
that loads, or `none` when every candidate fails. -/
def loadFirst (cdll : String → Option NativeLib) : List String → Option NativeLib
  | [] => none
  | path :: rest =>
    match cdll path with
    | some lib => some lib
    | none => loadFirst cdll rest

/-- `JavaScriptCoreEvaluator._load_library`. -/
def _load_library (find_library : String → Option String)
    (cdll : String → Option NativeLib) : Option NativeLib :=
  loadFirst cdll (_candidate_libraries find_library)

/-- `JavaScriptCoreEvaluator.__init__`: load the library and raise
`JavaScriptCoreError` when no candidate loaded (a `CDLL` object is always
truthy, so `not self._library` is exactly the `None` case);
`_configure_functions` only declares argument/return types and is absorbed
into the `NativeLib` record. -/
def init (find_library : String → Option String)
    (cdll : String → Option NativeLib) : Except JavaScriptCoreError NativeLib :=
  match _load_library find_library cdll with
  | none => Except.error ⟨"JavaScriptCore framework is not available"⟩
  | some lib => Except.ok lib

end JavaScriptCoreEvaluator

/-- The provider-level error `JsChallengeProviderError`, with the `from`
cause recorded. -/
structure JsChallengeProviderError where
  message : String
  cause : Option JavaScriptCoreError
  deriving DecidableEq, Repr

/-- A Python exception as seen by the `except` clause of
`_run_js_runtime`: either a `JavaScriptCoreError` or any other exception. -/
inductive PyException where
  | jsCore (e : JavaScriptCoreError)
  | other (description : String)
  deriving DecidableEq, Repr

namespace JavaScriptCoreJCP

/-- The `except JavaScriptCoreError` clause of
`JavaScriptCoreJCP._run_js_runtime`, applied to the outcome of the `try`
body: a `JavaScriptCoreError` is re-raised as a `JsChallengeProviderError`
whose message is the original message behind the explanatory text
`JavaScriptCore runtime failed: ` and whose cause is the original error
(`raise ... from err`); any other exception propagates untouched
(`Sum.inl`); a successful outcome is returned unchanged. -/
def _run_js_runtime_catch (outcome : Except PyException String) :
    Except (PyException ⊕ JsChallengeProviderError) String :=
  match outcome with
  | Except.ok s => Except.ok s
  | Except.error (PyException.jsCore err) =>
    Except.error (Sum.inr ⟨"JavaScriptCore runtime failed: " ++ err.message, some err⟩)
  | Except.error e => Except.error (Sum.inl e)

/-- The provider's cached-property state: `functools.cached_property`
stores the constructed `JavaScriptCoreEvaluator` (identified by its loaded
library) after the first successful access and leaves the cache empty when
construction raised. -/
structure State where
  evaluatorCache : Option NativeLib

/-- `JavaScriptCoreJCP._evaluator` (a `functools.cached_property`): return
the cached evaluator when present without touching the locator; otherwise
construct `JavaScriptCoreEvaluator()` and cache it on success. -/
def _evaluator (find_library : String → Option String)
    (cdll : String → Option NativeLib) (st : State) :
    Except JavaScriptCoreError (NativeLib × State) :=
  match st.evaluatorCache with
  | some lib => Except.ok (lib, st)
  | none =>
    match JavaScriptCoreEvaluator.init find_library cdll with
    | Except.error e => Except.error e
    | Except.ok lib => Except.ok (lib, ⟨some lib⟩)

/-- `JavaScriptCoreJCP._run_js_runtime` end to end: `self._evaluator` is
read inside the `try` block, so a `JavaScriptCoreError` raised by lazy
construction is wrapped exactly like one raised by `evaluate`.  Returns
the provider-level outcome, the native handle-event trace, and the state
after the call. -/
def _run_js_runtime (find_library : String → Option String)
    (cdll : String → Option NativeLib) (st : State) (stdin : String) :
    (Except JsChallengeProviderError String × List Ev) × State :=
  match _evaluator find_library cdll st with
  | Except.error err =>
    ((Except.error ⟨"JavaScriptCore runtime failed: " ++ err.message, some err⟩, []), st)
  | Except.ok (lib, st2) =>
    match JavaScriptCoreEvaluator.evaluate lib stdin with
    | (Except.ok s, evs) => ((Except.ok s, evs), st2)
    | (Except.error err, evs) =>
      ((Except.error ⟨"JavaScriptCore runtime failed: " ++ err.message, some err⟩, evs), st2)

end JavaScriptCoreJCP

/-- Balance of a handle-event trace: for every handle, the number of
create events equals the number of release events — no handle is left
outstanding and none is released more often than created. -/
def tracksBalanced (tr : List Ev) : Prop :=
  (∀ h, tr.count (Ev.createCtx h) = tr.count (Ev.releaseCtx h)) ∧
  (∀ h, tr.count (Ev.createStr h) = tr.count (Ev.releaseStr h))

end JSCore

namespace JSCore

/-- Opening line of the wrapper IIFE. -/
def wrapIife : String := "(() => \x7b\n"

/-- The strict-mode directive line of the wrapper. -/
def wrapStrict : String := "    \x27use strict\x27;\n"

/-- Declaration of the output accumulator. -/
def wrapOutputDecl : String := "    const __yt_console_output = [];\n"

/-- Body of the replacement print function: per-argument stringification
(native strings pass through; other values try `JSON.stringify`, falling
back to `String(arg)` when serialization throws). -/
def wrapLogDef : String :=
  "    const __yt_console_log = (...args) => __yt_console_output.push(args.map((arg) => \x7b\n" ++
  "        if (typeof arg === \x27string\x27) \x7b\n" ++
  "            return arg;\n" ++
  "        \x7d\n" ++
  "        try \x7b\n" ++
  "            return JSON.stringify(arg);\n" ++
  "        \x7d catch (err) \x7b\n" ++
  "            return String(arg);\n" ++
  "        \x7d\n"

/-- Closing line of the replacement print function: the stringified
arguments of one call are joined with a single space. -/
def wrapLogJoin : String := "    \x7d).join(\x27 \x27));\n"

/-- Installation of the replacement print function: the existing global
console object is spread into a new object so its other members survive,
and only `log` is overridden. -/
def wrapConsoleMerge : String :=
  "    const existingConsole = globalThis.console || \x7b\x7d;\n" ++
  "    globalThis.console = \x7b ...existingConsole, log: __yt_console_log \x7d;\n"

/-- Everything `_wrap_script` places before the caller's script, up to and
including the four-space indentation of the spliced line. -/
def wrapDecls : String :=
  wrapIife ++ wrapStrict ++ wrapOutputDecl ++ wrapLogDef ++ wrapLogJoin ++
    wrapConsoleMerge ++ "    "

/-- Everything `_wrap_script` places after the caller's script: the
newline closing the spliced line, the `return` of the accumulator joined
with newline characters, and the IIFE invocation. -/
def wrapTailText : String :=
  "\n" ++ "    return __yt_console_output.join(\x27\\n\x27);\n" ++ "\x7d)()"

end JSCore

namespace JSCore

/-- A mock binding layer on which every call succeeds: context handle 1,
script-string handle 2, result value handle 3, copied string handle 4 with
no exception, string content the single byte `0x61` (`a`). -/
def balLib : NativeLib :=
  ⟨some 1, fun _ => some 2, fun _ _ => (some 3, none), fun _ _ => (some 4, none),
    fun _ => 1, fun _ _ => [0x61]⟩

/-- A mock binding layer on which `JSValueToStringCopy` returns a non-null
string handle (4) while also setting its exception out-parameter (5). -/
def leakLib : NativeLib :=
  ⟨some 1, fun _ => some 2, fun _ _ => (some 3, none), fun _ _ => (some 4, some 5),
    fun _ => 0, fun _ _ => []⟩

/-- A mock binding layer on which `JSEvaluateScript` reports an exception
(value handle 3) that stringifies to the single byte `0x62` (`b`). -/
def excLib : NativeLib :=
  ⟨some 1, fun _ => some 2, fun _ _ => (none, some 3), fun _ _ => (some 4, none),
    fun _ => 1, fun _ _ => [0x62]⟩

/-- A mock binding layer on which `JSEvaluateScript` reports an exception
whose stringification yields a null string handle, so the exception text
is empty. -/
def genLib : NativeLib :=
  ⟨some 1, fun _ => some 2, fun _ _ => (none, some 3), fun _ _ => (none, none),
    fun _ => 0, fun _ _ => []⟩

end JSCore

namespace JSCore

theorem wrap_script_decomposition (s : String) :
    JavaScriptCoreEvaluator._wrap_script s = wrapDecls ++ s ++ wrapTailText := by
  simp [JavaScriptCoreEvaluator._wrap_script, wrapDecls, wrapIife, wrapStrict,
    wrapOutputDecl, wrapLogDef, wrapLogJoin, wrapConsoleMerge, wrapTailText,
    String.append_assoc]

/-- C4: `_wrap_script` produces an IIFE embedding the caller's script
verbatim as a contiguous substring after the print-interception
declarations (`wrapDecls`), the declarations install the replacement print
function by spreading the existing global console object rather than
replacing its members, one print call's stringified arguments are joined
with a single space, and the wrapper ends by returning the output
accumulator joined with newline characters. -/
theorem wrap_script_embeds_and_captures (s : String) :
    JavaScriptCoreEvaluator._wrap_script s = wrapDecls ++ s ++ wrapTailText ∧
    wrapConsoleMerge =
      "    const existingConsole = globalThis.console || \x7b\x7d;\n" ++
      "    globalThis.console = \x7b ...existingConsole, log: __yt_console_log \x7d;\n" ∧
    (∃ a b, wrapDecls = a ++ wrapConsoleMerge ++ b) ∧
    wrapLogJoin = "    \x7d).join(\x27 \x27));\n" ∧
    (∃ a b, wrapDecls = a ++ wrapLogJoin ++ b) ∧
    wrapTailText =
      "\n" ++ "    return __yt_console_output.join(\x27\\n\x27);\n" ++ "\x7d)()" := by
  refine ⟨wrap_script_decomposition s, rfl, ⟨wrapIife ++ wrapStrict ++ wrapOutputDecl ++
    wrapLogDef ++ wrapLogJoin, "    ", ?_⟩, rfl,
    ⟨wrapIife ++ wrapStrict ++ wrapOutputDecl ++ wrapLogDef,
      wrapConsoleMerge ++ "    ", ?_⟩, rfl⟩
  · simp [wrapDecls, String.append_assoc]
  · simp [wrapDecls, String.append_assoc]

/-- C10: for every script `s`, the wrapper text opens its function body
with the strict-mode directive before any other statement, so the embedded
script always runs under strict-mode semantics. -/
theorem wrap_script_starts_strict_mode (s : String) :
    ∃ rest, JavaScriptCoreEvaluator._wrap_script s =
      "(() => \x7b\n" ++ "    \x27use strict\x27;\n" ++ rest := by
  refine ⟨wrapOutputDecl ++ wrapLogDef ++ wrapLogJoin ++ wrapConsoleMerge ++ "    " ++
    (s ++ wrapTailText), ?_⟩
  simp only [JavaScriptCoreEvaluator._wrap_script, wrapOutputDecl, wrapLogDef,
    wrapLogJoin, wrapConsoleMerge, wrapTailText, String.append_assoc]

end JSCore

namespace JSCore

theorem loadFirst_eq_none (cdll : String → Option NativeLib) (l : List String)
    (h : ∀ p ∈ l, cdll p = none) :
    JavaScriptCoreEvaluator.loadFirst cdll l = none := by
  induction l with
  | nil => rfl
  | cons p rest ih =>
    have hp := h p (List.mem_cons_self p rest)
    simp [JavaScriptCoreEvaluator.loadFirst, hp]
    exact ih fun q hq => h q (List.mem_cons_of_mem p hq)

/-- C7: when every candidate the locator tries (the absolute framework
path first, then the version-suffixed named libraries) fails to load,
constructing the evaluator deterministically raises the unavailability
error, and a provider run starting with no cached evaluator yields only
the wrapped unavailability error with an empty native-event trace — no
context is created and no evaluation proceeds. -/
theorem init_unavailable_blocks_evaluation (find_library : String → Option String)
    (cdll : String → Option NativeLib)
    (h : ∀ p ∈ JavaScriptCoreEvaluator._candidate_libraries find_library, cdll p = none)
    (stdin : String) :
    JavaScriptCoreEvaluator.init find_library cdll =
      Except.error ⟨"JavaScriptCore framework is not available"⟩ ∧
    JavaScriptCoreJCP._run_js_runtime find_library cdll ⟨none⟩ stdin =
      ((Except.error
          ⟨"JavaScriptCore runtime failed: JavaScriptCore framework is not available",
            some ⟨"JavaScriptCore framework is not available"⟩⟩, []), ⟨none⟩) := by
  have hload : JavaScriptCoreEvaluator._load_library find_library cdll = none :=
    loadFirst_eq_none cdll _ h
  have hinit : JavaScriptCoreEvaluator.init find_library cdll =
      Except.error ⟨"JavaScriptCore framework is not available"⟩ := by
    simp [JavaScriptCoreEvaluator.init, hload]
  refine ⟨hinit, ?_⟩
  simp [JavaScriptCoreJCP._run_js_runtime, JavaScriptCoreJCP._evaluator, hinit]

/-- Witness for C7 at a platform on which `find_library` resolves nothing
and every `CDLL` attempt raises `OSError`. -/
theorem init_unavailable_blocks_evaluation_witness :
    JavaScriptCoreEvaluator.init (fun _ => none) (fun _ => none) =
      Except.error ⟨"JavaScriptCore framework is not available"⟩ ∧
    JavaScriptCoreJCP._run_js_runtime (fun _ => none) (fun _ => none) ⟨none⟩ "1 + 1" =
      ((Except.error
          ⟨"JavaScriptCore runtime failed: JavaScriptCore framework is not available",
            some ⟨"JavaScriptCore framework is not available"⟩⟩, []), ⟨none⟩) :=
  init_unavailable_blocks_evaluation (fun _ => none) (fun _ => none)
    (fun _ _ => rfl) "1 + 1"

/-- C8: the evaluator (and with it the library handle) is constructed
lazily and at most once.  A cached evaluator is returned unchanged without
consulting the locator or loader (the result is the same for arbitrary
locator and loader functions); a provider run from a cached state leaves
the binding untouched, whatever `evaluate` does; and once the first access
constructs a library successfully, every later access — again with
arbitrary locator and loader functions — reuses exactly that library. -/
theorem library_binding_stable (fl fl2 : String → Option String)
    (cdll cdll2 : String → Option NativeLib) (lib : NativeLib) (stdin : String) :
    JavaScriptCoreJCP._evaluator fl cdll ⟨some lib⟩ = Except.ok (lib, ⟨some lib⟩) ∧
    (JavaScriptCoreJCP._run_js_runtime fl cdll ⟨some lib⟩ stdin).2 = ⟨some lib⟩ ∧
    (∀ l2, JavaScriptCoreEvaluator.init fl cdll = Except.ok l2 →
      JavaScriptCoreJCP._evaluator fl cdll ⟨none⟩ = Except.ok (l2, ⟨some l2⟩) ∧
      JavaScriptCoreJCP._evaluator fl2 cdll2 ⟨some l2⟩ = Except.ok (l2, ⟨some l2⟩)) := by
  refine ⟨rfl, ?_, ?_⟩
  · simp only [JavaScriptCoreJCP._run_js_runtime, JavaScriptCoreJCP._evaluator]
    rcases hev : JavaScriptCoreEvaluator.evaluate lib stdin with ⟨r, evs⟩
    cases r <;> simp [hev]
  · intro l2 h2
    constructor
    · simp [JavaScriptCoreJCP._evaluator, h2]
    · rfl

/-- Witness for C8: with a loader that succeeds on the framework path, the
first access constructs and caches `balLib` and later accesses reuse it. -/
theorem library_binding_stable_witness :
    JavaScriptCoreJCP._evaluator (fun _ => none) (fun _ => some balLib) ⟨none⟩ =
      Except.ok (balLib, ⟨some balLib⟩) ∧
    JavaScriptCoreJCP._evaluator (fun _ => none) (fun _ => none) ⟨some balLib⟩ =
      Except.ok (balLib, ⟨some balLib⟩) :=
  ⟨((library_binding_stable (fun _ => none) (fun _ => none) (fun _ => some balLib)
      (fun _ => none) balLib "x").2.2 balLib rfl).1,
    ((library_binding_stable (fun _ => none) (fun _ => none) (fun _ => some balLib)
      (fun _ => none) balLib "x").2.2 balLib rfl).2⟩

/-- C9: the provider adapter's `except` clause re-raises a
`JavaScriptCoreError` as a `JsChallengeProviderError` whose message is the
original message prefixed with `JavaScriptCore runtime failed: ` and whose
cause is the original error; any other exception type passes through this
translation untouched, successful results are returned unchanged, and
every provider-level error a full provider run produces has exactly that
prefixed shape with the evaluator error as its cause. -/
theorem provider_error_translation :
    (∀ err : JavaScriptCoreError,
      JavaScriptCoreJCP._run_js_runtime_catch (Except.error (PyException.jsCore err)) =
        Except.error
          (Sum.inr ⟨"JavaScriptCore runtime failed: " ++ err.message, some err⟩)) ∧
    (∀ d, JavaScriptCoreJCP._run_js_runtime_catch (Except.error (PyException.other d)) =
      Except.error (Sum.inl (PyException.other d))) ∧
    (∀ s, JavaScriptCoreJCP._run_js_runtime_catch (Except.ok s) = Except.ok s) ∧
    (∀ (fl : String → Option String) (cdll : String → Option NativeLib) st stdin e,
      ((JavaScriptCoreJCP._run_js_runtime fl cdll st stdin).1).1 = Except.error e →
      ∃ err : JavaScriptCoreError,
        e.message = "JavaScriptCore runtime failed: " ++ err.message ∧
        e.cause = some err) := by
  refine ⟨fun err => rfl, fun d => rfl, fun s => rfl, ?_⟩
  intro fl cdll st stdin e he
  unfold JavaScriptCoreJCP._run_js_runtime at he
  split at he
  next err _ =>
    simp at he
    subst he
    exact ⟨err, rfl, rfl⟩
  next lib st2 _ =>
    split at he
    next s evs _ => simp at he
    next err2 evs _ =>
      simp at he
      subst he
      exact ⟨err2, rfl, rfl⟩

/-- Witness for C9: a provider run over `excLib` (whose script exception
stringifies to `b`) produces the prefixed provider error with the original
evaluator error as cause. -/
theorem provider_error_translation_witness :
    ∃ err : JSCore.JavaScriptCoreError,
      (⟨"JavaScriptCore runtime failed: b", some ⟨"b"⟩⟩ :
          JsChallengeProviderError).message =
        "JavaScriptCore runtime failed: " ++ err.message ∧
      (⟨"JavaScriptCore runtime failed: b", some ⟨"b"⟩⟩ :
          JsChallengeProviderError).cause = some err :=
  provider_error_translation.2.2.2 (fun _ => none) (fun _ => some excLib) ⟨none⟩ "x"
    ⟨"JavaScriptCore runtime failed: b", some ⟨"b"⟩⟩ rfl

end JSCore

namespace JSCore

theorem mem_value_to_string_trace (lib : NativeLib) (ctx : Nat) (v : Option Nat) (e : Ev)
    (h : e ∈ (JavaScriptCoreEvaluator._value_to_string lib ctx v).2) :
    ∃ v' r, (lib.JSValueToStringCopy ctx v').1 = some r ∧
      (e = Ev.createStr r ∨ e = Ev.releaseStr r) := by
  cases v with
  | none => simp [JavaScriptCoreEvaluator._value_to_string] at h
  | some v' =>
    rcases hc : lib.JSValueToStringCopy ctx v' with ⟨sr, exc⟩
    cases exc with
    | some e2 =>
      cases sr with
      | none => simp [JavaScriptCoreEvaluator._value_to_string, hc] at h
      | some r =>
        simp [JavaScriptCoreEvaluator._value_to_string, hc] at h
        exact ⟨v', r, by rw [hc], Or.inl h⟩
    | none =>
      cases sr with
      | none => simp [JavaScriptCoreEvaluator._value_to_string, hc] at h
      | some r =>
        simp [JavaScriptCoreEvaluator._value_to_string, hc] at h
        rcases h with h | h
        · exact ⟨v', r, by rw [hc], Or.inl h⟩
        · exact ⟨v', r, by rw [hc], Or.inr h⟩

theorem mem_evaluate_script_trace (lib : NativeLib) (ctx : Nat) (s : String) (e : Ev)
    (h : e ∈ (JavaScriptCoreEvaluator._evaluate_script lib ctx s).2) :
    (∃ n, e = Ev.createStr n) ∨ (∃ n, e = Ev.releaseStr n) := by
  rcases hjs : lib.JSStringCreateWithUTF8CString s with _ | js
  · simp [JavaScriptCoreEvaluator._evaluate_script, hjs] at h
  · rcases hrun : lib.JSEvaluateScript ctx js with ⟨result, exc⟩
    cases exc with
    | some ex =>
      rcases hv : JavaScriptCoreEvaluator._value_to_string lib ctx (some ex) with ⟨msg, evs⟩
      simp only [JavaScriptCoreEvaluator._evaluate_script, hjs, hrun, hv] at h
      simp at h
      rcases h with rfl | rfl | hmem
      · exact Or.inl ⟨js, rfl⟩
      · exact Or.inr ⟨js, rfl⟩
      · rcases mem_value_to_string_trace lib ctx (some ex) e (by rw [hv]; exact hmem) with
          ⟨v', r, _, h1 | h1⟩
        · exact Or.inl ⟨r, h1⟩
        · exact Or.inr ⟨r, h1⟩
    | none =>
      rcases hv : JavaScriptCoreEvaluator._value_to_string lib ctx result with ⟨msg, evs⟩
      simp only [JavaScriptCoreEvaluator._evaluate_script, hjs, hrun, hv] at h
      simp at h
      rcases h with rfl | rfl | hmem
      · exact Or.inl ⟨js, rfl⟩
      · exact Or.inr ⟨js, rfl⟩
      · rcases mem_value_to_string_trace lib ctx result e (by rw [hv]; exact hmem) with
          ⟨v', r, _, h1 | h1⟩
        · exact Or.inl ⟨r, h1⟩
        · exact Or.inr ⟨r, h1⟩

/-- C2: whenever `JSGlobalContextCreate` returns a non-null handle,
`evaluate` releases exactly that handle exactly once, as the very last
native handle event of the call — on the success path, the native-script-
exception path and the internal string-allocation-failure path alike — so
the context is neither double-released nor used after its release. -/
theorem context_released_exactly_once (lib : NativeLib) (script : String) (ctx : Nat)
    (h : lib.JSGlobalContextCreate = some ctx) :
    ∃ pre, (JavaScriptCoreEvaluator.evaluate lib script).2 = pre ++ [Ev.releaseCtx ctx] ∧
      Ev.releaseCtx ctx ∉ pre ∧
      ((JavaScriptCoreEvaluator.evaluate lib script).2).count (Ev.releaseCtx ctx) = 1 := by
  rcases he : JavaScriptCoreEvaluator._evaluate_script lib ctx
      (JavaScriptCoreEvaluator._wrap_script script) with ⟨r, evs⟩
  have htr : (JavaScriptCoreEvaluator.evaluate lib script).2 =
      Ev.createCtx ctx :: (evs ++ [Ev.releaseCtx ctx]) := by
    simp only [JavaScriptCoreEvaluator.evaluate, h, he]
  have hz : evs.count (Ev.releaseCtx ctx) = 0 := by
    rw [List.count_eq_zero]
    intro hmem
    rcases mem_evaluate_script_trace lib ctx _ _ (by rw [he]; exact hmem) with
      ⟨n, hn⟩ | ⟨n, hn⟩ <;> simp at hn
  refine ⟨Ev.createCtx ctx :: evs, ?_, ?_, ?_⟩
  · rw [htr]; simp
  · intro hmem
    rcases List.mem_cons.mp hmem with h1 | h1
    · simp at h1
    · have := List.count_eq_zero.mp hz
      exact this h1
  · rw [htr]
    simp [List.count_cons, List.count_append, hz]

/-- Witness for C2 on the all-successful mock layer `balLib`. -/
theorem context_released_exactly_once_witness :
    ∃ pre, (JavaScriptCoreEvaluator.evaluate balLib "x").2 = pre ++ [Ev.releaseCtx 1] ∧
      Ev.releaseCtx 1 ∉ pre ∧
      ((JavaScriptCoreEvaluator.evaluate balLib "x").2).count (Ev.releaseCtx 1) = 1 :=
  context_released_exactly_once balLib "x" 1 rfl

theorem value_to_string_trace_avoids (lib : NativeLib) (ctx : Nat) (v : Option Nat)
    (js : Nat) (hdistinct : ∀ c v', (lib.JSValueToStringCopy c v').1 ≠ some js) :
    Ev.releaseStr js ∉ (JavaScriptCoreEvaluator._value_to_string lib ctx v).2 ∧
    Ev.createStr js ∉ (JavaScriptCoreEvaluator._value_to_string lib ctx v).2 := by
  constructor
  · intro hmem
    rcases mem_value_to_string_trace lib ctx v _ hmem with ⟨v', r, hr, h1 | h1⟩
    · simp at h1
    · simp at h1
      subst h1
      exact hdistinct ctx v' hr
  · intro hmem
    rcases mem_value_to_string_trace lib ctx v _ hmem with ⟨v', r, hr, h1 | h1⟩
    · simp at h1
      subst h1
      exact hdistinct ctx v' hr
    · simp at h1

/-- C6: whenever the source string object is created successfully
(`JSStringCreateWithUTF8CString` returns a non-null handle `js`),
`JSStringRelease` is applied to it exactly once, immediately after the
`JSEvaluateScript` call and before any value-conversion event, on the
exception path and the non-exception path alike, independently of the
later release of the execution context (which `_evaluate_script` never
touches).  The freshness hypothesis `hdistinct` states that the handles
`JSValueToStringCopy` hands out are distinct from the script string's. -/
theorem source_string_released_once (lib : NativeLib) (ctx : Nat) (script : String)
    (js : Nat) (hjs : lib.JSStringCreateWithUTF8CString script = some js)
    (hdistinct : ∀ c v, (lib.JSValueToStringCopy c v).1 ≠ some js) :
    ∃ tail, (JavaScriptCoreEvaluator._evaluate_script lib ctx script).2 =
        Ev.createStr js :: Ev.releaseStr js :: tail ∧
      Ev.releaseStr js ∉ tail ∧
      ((JavaScriptCoreEvaluator._evaluate_script lib ctx script).2).count
        (Ev.releaseStr js) = 1 := by
  rcases hrun : lib.JSEvaluateScript ctx js with ⟨result, exc⟩
  have main : ∀ v : Option Nat,
      ∀ evs, (JavaScriptCoreEvaluator._value_to_string lib ctx v).2 = evs →
      Ev.releaseStr js ∉ evs ∧
      (Ev.createStr js :: Ev.releaseStr js :: evs).count (Ev.releaseStr js) = 1 := by
    intro v evs hv
    have havd := value_to_string_trace_avoids lib ctx v js hdistinct
    rw [hv] at havd
    refine ⟨havd.1, ?_⟩
    have hz : evs.count (Ev.releaseStr js) = 0 := List.count_eq_zero.mpr havd.1
    simp [List.count_cons, hz]
  cases exc with
  | some ex =>
    rcases hv : JavaScriptCoreEvaluator._value_to_string lib ctx (some ex) with ⟨msg, evs⟩
    have htr : (JavaScriptCoreEvaluator._evaluate_script lib ctx script).2 =
        Ev.createStr js :: Ev.releaseStr js :: evs := by
      simp only [JavaScriptCoreEvaluator._evaluate_script, hjs, hrun, hv]
    rcases main (some ex) evs (by rw [hv]) with ⟨hnot, hcnt⟩
    exact ⟨evs, htr, hnot, by rw [htr]; exact hcnt⟩
  | none =>
    rcases hv : JavaScriptCoreEvaluator._value_to_string lib ctx result with ⟨msg, evs⟩
    have htr : (JavaScriptCoreEvaluator._evaluate_script lib ctx script).2 =
        Ev.createStr js :: Ev.releaseStr js :: evs := by
      simp only [JavaScriptCoreEvaluator._evaluate_script, hjs, hrun, hv]
    rcases main result evs (by rw [hv]) with ⟨hnot, hcnt⟩
    exact ⟨evs, htr, hnot, by rw [htr]; exact hcnt⟩

/-- Witness for C6 on `balLib` (script string handle 2, copied string
handle 4). -/
theorem source_string_released_once_witness :
    ∃ tail, (JavaScriptCoreEvaluator._evaluate_script balLib 1
        (JavaScriptCoreEvaluator._wrap_script "x")).2 =
        Ev.createStr 2 :: Ev.releaseStr 2 :: tail ∧
      Ev.releaseStr 2 ∉ tail ∧
      ((JavaScriptCoreEvaluator._evaluate_script balLib 1
        (JavaScriptCoreEvaluator._wrap_script "x")).2).count (Ev.releaseStr 2) = 1 :=
  source_string_released_once balLib 1 (JavaScriptCoreEvaluator._wrap_script "x") 2 rfl
    (fun c v => by simp [balLib])

end JSCore

namespace JSCore

/-- C1 counterexample: on the mock binding layer `leakLib`, whose
`JSValueToStringCopy` returns the non-null string handle 4 while also
setting its exception out-parameter, an `evaluate` call creates string
handle 4 but never releases it — the early `return ''` in
`_value_to_string` precedes the try/finally that would release it — so
the create and release counts differ and the claimed balance fails. -/
theorem handle_leak_counterexample :
    ¬ tracksBalanced (JavaScriptCoreEvaluator.evaluate leakLib "x").2 := by
  intro hb
  have h4 := hb.2 4
  have htr : (JavaScriptCoreEvaluator.evaluate leakLib "x").2 =
      [Ev.createCtx 1, Ev.createStr 2, Ev.releaseStr 2, Ev.createStr 4,
        Ev.releaseCtx 1] := rfl
  rw [htr] at h4
  revert h4
  decide

theorem value_to_string_count_balanced (lib : NativeLib) (ctx : Nat) (v : Option Nat)
    (hcopy : ∀ c v', ((lib.JSValueToStringCopy c v').2).isSome →
      (lib.JSValueToStringCopy c v').1 = none) (h : Nat) :
    ((JavaScriptCoreEvaluator._value_to_string lib ctx v).2).count (Ev.createStr h) =
    ((JavaScriptCoreEvaluator._value_to_string lib ctx v).2).count (Ev.releaseStr h) := by
  cases v with
  | none => rfl
  | some v' =>
    rcases hc : lib.JSValueToStringCopy ctx v' with ⟨sr, exc⟩
    cases exc with
    | some ex =>
      have hn : sr = none := by
        have h1 := hcopy ctx v'
        rw [hc] at h1
        simpa using h1
      subst hn
      simp [JavaScriptCoreEvaluator._value_to_string, hc]
    | none =>
      cases sr with
      | none => simp [JavaScriptCoreEvaluator._value_to_string, hc]
      | some r =>
        simp only [JavaScriptCoreEvaluator._value_to_string, hc]
        by_cases hr : h = r <;>
          simp [List.count_cons, hr]

theorem evaluate_script_count_balanced (lib : NativeLib) (ctx : Nat) (s : String)
    (hcopy : ∀ c v', ((lib.JSValueToStringCopy c v').2).isSome →
      (lib.JSValueToStringCopy c v').1 = none) (h : Nat) :
    ((JavaScriptCoreEvaluator._evaluate_script lib ctx s).2).count (Ev.createStr h) =
    ((JavaScriptCoreEvaluator._evaluate_script lib ctx s).2).count (Ev.releaseStr h) := by
  rcases hjs : lib.JSStringCreateWithUTF8CString s with _ | js
  · simp [JavaScriptCoreEvaluator._evaluate_script, hjs]
  · rcases hrun : lib.JSEvaluateScript ctx js with ⟨result, exc⟩
    cases exc with
    | some ex =>
      rcases hv : JavaScriptCoreEvaluator._value_to_string lib ctx (some ex) with ⟨msg, evs⟩
      have hbal : evs.count (Ev.createStr h) = evs.count (Ev.releaseStr h) := by
        have h1 := value_to_string_count_balanced lib ctx (some ex) hcopy h
        rw [hv] at h1
        exact h1
      have htr : (JavaScriptCoreEvaluator._evaluate_script lib ctx s).2 =
          Ev.createStr js :: Ev.releaseStr js :: evs := by
        simp only [JavaScriptCoreEvaluator._evaluate_script, hjs, hrun, hv]
      rw [htr]
      by_cases hhj : h = js
      · subst hhj
        simp [List.count_cons, hbal]
      · simp [List.count_cons, hhj, hbal]
    | none =>
      rcases hv : JavaScriptCoreEvaluator._value_to_string lib ctx result with ⟨msg, evs⟩
      have hbal : evs.count (Ev.createStr h) = evs.count (Ev.releaseStr h) := by
        have h1 := value_to_string_count_balanced lib ctx result hcopy h
        rw [hv] at h1
        exact h1
      have htr : (JavaScriptCoreEvaluator._evaluate_script lib ctx s).2 =
          Ev.createStr js :: Ev.releaseStr js :: evs := by
        simp only [JavaScriptCoreEvaluator._evaluate_script, hjs, hrun, hv]
      rw [htr]
      by_cases hhj : h = js
      · subst hhj
        simp [List.count_cons, hbal]
      · simp [List.count_cons, hhj, hbal]

/-- C1 amended: provided `JSValueToStringCopy` returns a null string
handle whenever it sets its exception out-parameter — which is the
documented behaviour of the real engine, and exactly the condition the
leak counterexample violates — every `evaluate` call is handle-balanced:
for each context and string handle the number of create events equals the
number of release events, on the success path and on every failure path. -/
theorem evaluate_handles_balanced (lib : NativeLib)
    (hcopy : ∀ c v', ((lib.JSValueToStringCopy c v').2).isSome →
      (lib.JSValueToStringCopy c v').1 = none) (script : String) :
    tracksBalanced (JavaScriptCoreEvaluator.evaluate lib script).2 := by
  rcases hctx : lib.JSGlobalContextCreate with _ | ctx
  · constructor <;> intro h <;> simp [JavaScriptCoreEvaluator.evaluate, hctx]
  · rcases he : JavaScriptCoreEvaluator._evaluate_script lib ctx
        (JavaScriptCoreEvaluator._wrap_script script) with ⟨r, evs⟩
    have htr : (JavaScriptCoreEvaluator.evaluate lib script).2 =
        Ev.createCtx ctx :: (evs ++ [Ev.releaseCtx ctx]) := by
      simp only [JavaScriptCoreEvaluator.evaluate, hctx, he]
    have hstr : ∀ n, evs.count (Ev.createStr n) = evs.count (Ev.releaseStr n) := by
      intro n
      have h1 := evaluate_script_count_balanced lib ctx
        (JavaScriptCoreEvaluator._wrap_script script) hcopy n
      rw [he] at h1
      exact h1
    have hnoctx : ∀ n, evs.count (Ev.createCtx n) = 0 ∧ evs.count (Ev.releaseCtx n) = 0 := by
      intro n
      constructor <;>
        (rw [List.count_eq_zero]
         intro hmem
         rcases mem_evaluate_script_trace lib ctx _ _ (by rw [he]; exact hmem) with
           ⟨m, hm⟩ | ⟨m, hm⟩ <;> simp at hm)
    constructor
    · intro n
      rw [htr]
      rcases hnoctx n with ⟨hz1, hz2⟩
      by_cases hn : n = ctx
      · subst hn
        simp [List.count_cons, List.count_append, hz1, hz2]
      · simp [List.count_cons, List.count_append, hn, hz1, hz2]
    · intro n
      rw [htr]
      simp [List.count_cons, List.count_append, hstr n]

/-- Witness for C1-amended on `balLib`, whose `JSValueToStringCopy` never
sets its exception out-parameter. -/
theorem evaluate_handles_balanced_witness :
    tracksBalanced (JavaScriptCoreEvaluator.evaluate balLib "x").2 :=
  evaluate_handles_balanced balLib
    (fun c v' h => by simp [balLib] at h) "x"

end JSCore

namespace JSCore

/-- C3: once the context and the script string exist, an `evaluate` call
branches exactly on the exception out-parameter of `JSEvaluateScript`:
when it is non-null the call raises a `JavaScriptCoreError` whose message
is the stringified exception text, or the generic text
`JavaScriptCore raised an exception` when that stringification is empty;
when it is null no error is raised and the stringified result value is
returned. -/
theorem evaluate_exception_behaviour (lib : NativeLib) (script : String) (ctx js : Nat)
    (hctx : lib.JSGlobalContextCreate = some ctx)
    (hjs : lib.JSStringCreateWithUTF8CString
      (JavaScriptCoreEvaluator._wrap_script script) = some js) :
    (∀ result e, lib.JSEvaluateScript ctx js = (result, some e) →
      (JavaScriptCoreEvaluator.evaluate lib script).1 = Except.error
        ⟨if (JavaScriptCoreEvaluator._value_to_string lib ctx (some e)).1 = ""
          then "JavaScriptCore raised an exception"
          else (JavaScriptCoreEvaluator._value_to_string lib ctx (some e)).1⟩) ∧
    (∀ result, lib.JSEvaluateScript ctx js = (result, none) →
      (JavaScriptCoreEvaluator.evaluate lib script).1 =
        Except.ok (JavaScriptCoreEvaluator._value_to_string lib ctx result).1) := by
  constructor
  · intro result e hrun
    rcases hv : JavaScriptCoreEvaluator._value_to_string lib ctx (some e) with ⟨msg, evs⟩
    simp only [JavaScriptCoreEvaluator.evaluate, JavaScriptCoreEvaluator._evaluate_script,
      hctx, hjs, hrun, hv]
  · intro result hrun
    rcases hv : JavaScriptCoreEvaluator._value_to_string lib ctx result with ⟨msg, evs⟩
    simp only [JavaScriptCoreEvaluator.evaluate, JavaScriptCoreEvaluator._evaluate_script,
      hctx, hjs, hrun, hv]

/-- Witness for C3: on `excLib` the exception stringifies to `b` and that
text is raised; on `genLib` the stringification is empty and the generic
message is raised; on `balLib` no exception is reported and the
stringified result `a` is returned. -/
theorem evaluate_exception_behaviour_witness :
    (JavaScriptCoreEvaluator.evaluate excLib "x").1 = Except.error ⟨"b"⟩ ∧
    (JavaScriptCoreEvaluator.evaluate genLib "x").1 =
      Except.error ⟨"JavaScriptCore raised an exception"⟩ ∧
    (JavaScriptCoreEvaluator.evaluate balLib "x").1 = Except.ok "a" :=
  ⟨((evaluate_exception_behaviour excLib "x" 1 2 rfl rfl).1 none 3 rfl).trans rfl,
    ((evaluate_exception_behaviour genLib "x" 1 2 rfl rfl).1 none 3 rfl).trans rfl,
    ((evaluate_exception_behaviour balLib "x" 1 2 rfl rfl).2 (some 3) rfl).trans rfl⟩

/-- C5: value-to-text conversion never propagates a failure: a null value
handle yields the empty string; when `JSValueToStringCopy` sets its own
exception out-parameter the conversion yields the empty string instead of
raising; only when that secondary conversion succeeds are the UTF-8 bytes
extracted (size query, buffer copy up to the capacity and the first NUL)
and decoded with invalid sequences replaced rather than raising, as the
final conjunct shows on an invalid byte. -/
theorem value_to_string_conversion (lib : NativeLib) (ctx : Nat) :
    (JavaScriptCoreEvaluator._value_to_string lib ctx none).1 = "" ∧
    (∀ v sr e, lib.JSValueToStringCopy ctx v = (sr, some e) →
      (JavaScriptCoreEvaluator._value_to_string lib ctx (some v)).1 = "") ∧
    (∀ v r, lib.JSValueToStringCopy ctx v = (some r, none) →
      (JavaScriptCoreEvaluator._value_to_string lib ctx (some v)).1 =
        List.asString (utf8DecodeReplace
          (((lib.JSStringGetUTF8CString r (lib.JSStringGetMaximumUTF8CStringSize r)).take
            (lib.JSStringGetMaximumUTF8CStringSize r)).takeWhile (fun b => b != 0)))) ∧
    utf8DecodeReplace [0x41, 0xFF, 0x42] =
      [Char.ofNat 0x41, replChar, Char.ofNat 0x42] := by
  refine ⟨rfl, ?_, ?_, by decide⟩
  · intro v sr e hc
    cases sr <;> simp [JavaScriptCoreEvaluator._value_to_string, hc]
  · intro v r hc
    simp [JavaScriptCoreEvaluator._value_to_string,
      JavaScriptCoreEvaluator._string_to_python, hc]

/-- Witness for C5: on `leakLib` the secondary conversion reports an
exception and the result degrades to empty text; on `balLib` it succeeds
and the byte `0x61` decodes to `a`. -/
theorem value_to_string_conversion_witness :
    (JavaScriptCoreEvaluator._value_to_string leakLib 1 (some 3)).1 = "" ∧
    (JavaScriptCoreEvaluator._value_to_string balLib 1 (some 3)).1 = "a" :=
  ⟨(value_to_string_conversion leakLib 1).2.1 3 (some 4) 5 rfl,
    ((value_to_string_conversion balLib 1).2.2.1 3 4 rfl).trans rfl⟩

end JSCore
